import Mathlib

/-!
Verification of the `backend-error-handler` package.

The repository under scrutiny (`src/src/async/express.async.ts` and
`src/src/async/trycatch.async.ts`) consists of four exception-handling
wrappers written in TypeScript:

  * `asyncHandler` wraps an Express request handler so that any synchronous
    throw or asynchronous rejection is forwarded to the `next` callback;
  * `trycatchWrapper`, `trycatchWrapperMongo`, `trycatchWrapperPrisma` wrap
    arbitrary repository/service functions, catching any exception and
    rethrowing it (unchanged, or translated into an `AppError`).

We shallowly embed the JavaScript semantics these wrappers rely on:

  * `Value` is the type of JavaScript values that can flow through the
    wrappers (primitives, plain objects as association lists, and
    `AppError` instances, the package's tagged error class);
  * `JsOutcome` is the observable outcome of invoking a JavaScript
    function: a synchronous throw, a plain (non-promise) return value, or
    a returned promise that resolves or rejects;
  * `awaitResolved` is the semantics of `await Promise.resolve(x)` (and of
    `await x`): a resolved promise or a plain value yields the value, a
    synchronous throw or a rejected promise raises the error — both error
    paths land in the same `catch` block, exactly as in the source;
  * the Prisma wrapper additionally performs a `console.log`; to state the
    ordering of the log relative to the rethrow we give that wrapper a
    small-step observable trace (`Event`).

The `AppError` class lives in `src/error/app.error.ts`, which is exported
by `src/index.ts` but is not among the provided source files; its named
constructors are therefore modelled from the specification (section 4.2)
and are marked as such below.
-/

/-- The closed enumeration of `AppError` categories described by the
specification's data model. -/
inductive ErrorCategory where
  | validation
  | badRequest
  | unauthorized
  | forbidden
  | notFound
  | conflict
  | internal
  | mongo
  | prisma
  | unknown
  deriving DecidableEq, Repr

/-- JavaScript values as they flow through the wrappers: `undefined`,
`null`, numbers, strings, plain objects (association lists of fields), and
instances of the package's `AppError` class, which carry a category, a
message, an HTTP status code, a structured `detail` payload (`undef` when
absent) and the `isOperational` flag. -/
inductive Value where
  | undef
  | vnull
  | num (n : Int)
  | str (s : String)
  | obj (fields : List (String × Value))
  | appError (category : ErrorCategory) (message : String)
      (statusCode : Nat) (detail : Value) (isOperational : Bool)

/-- The observable outcome of invoking a JavaScript function: it can throw
synchronously, return a plain (non-promise) value, or return a promise
that later resolves or rejects. -/
inductive JsOutcome where
  | syncThrow (e : Value)
  | retValue (v : Value)
  | promiseResolve (v : Value)
  | promiseReject (e : Value)

/-- Semantics of `await Promise.resolve(x)` (and plain `await x`) inside a
`try` block: plain values and resolved promises yield a value, while a
synchronous throw of the callee and a rejected promise both raise the
error into the surrounding `catch`. -/
def awaitResolved : JsOutcome → Except Value Value
  | .syncThrow e => .error e
  | .retValue v => .ok v
  | .promiseResolve v => .ok v
  | .promiseReject e => .error e

/-- `instanceof AppError`. -/
def isAppError : Value → Bool
  | .appError _ _ _ _ _ => true
  | _ => false

/-- The `category` field of an `AppError` value. -/
def Value.category? : Value → Option ErrorCategory
  | .appError c _ _ _ _ => some c
  | _ => none

/-- The `detail` field of an `AppError` value. -/
def Value.detail? : Value → Option Value
  | .appError _ _ _ d _ => some d
  | _ => none

/-- Property access `v.name` on a plain object (first binding wins, as in
a JavaScript object literal read). -/
def getField (v : Value) (name : String) : Option Value :=
  match v with
  | .obj fields => fields.lookup name
  | _ => none

/-- JavaScript string coercion `String(v)`, used only to fill the
`rawMessage` slot of normalized error details. -/
def jsToString : Value → String
  | .undef => "undefined"
  | .vnull => "null"
  | .num n => toString n
  | .str s => s
  | .obj _ => "[object Object]"
  | .appError _ m _ _ _ => "Error: " ++ m

/-- Modelled from the spec: `AppError.mongoError` normalizes a caught
Mongo-library exception. The class file `src/error/app.error.ts` is
exported by `src/index.ts` but absent from the provided sources; per
section 4.2, the constructor inspects the original error's shape (a
numeric `code` field) and stores a normalized object with `code`,
`keyValue` and `rawMessage` as `detail`, falling back to a bare
`rawMessage` object for unrecognized shapes. -/
def mongoDetail (orig : Value) : Value :=
  match getField orig "code" with
  | some c =>
      .obj [("code", c),
            ("keyValue", (getField orig "keyValue").getD .undef),
            ("rawMessage", .str (jsToString orig))]
  | none => .obj [("rawMessage", .str (jsToString orig))]

/-- Modelled from the spec: `AppError.mongoError(message, originalError)`
produces a Tagged Error of category `mongo` with status 500 and the
normalized detail; construction never throws and all named constructors
set `isOperational`. -/
def AppError.mongoError (message : String) (originalError : Value) : Value :=
  Value.appError .mongo message 500 (mongoDetail originalError) true

/-- Modelled from the spec: `AppError.prismaError` normalizes a caught
Prisma-library exception; per section 4.2 it stores `code`, `meta` and
`rawMessage` as `detail`, with the bare `rawMessage` fallback for
unrecognized shapes. -/
def prismaDetail (orig : Value) : Value :=
  match getField orig "code" with
  | some c =>
      .obj [("code", c),
            ("meta", (getField orig "meta").getD .undef),
            ("rawMessage", .str (jsToString orig))]
  | none => .obj [("rawMessage", .str (jsToString orig))]

/-- Modelled from the spec: `AppError.prismaError(message, originalError)`
produces a Tagged Error of category `prisma` with status 500 and the
normalized detail. -/
def AppError.prismaError (message : String) (originalError : Value) : Value :=
  Value.appError .prisma message 500 (prismaDetail originalError) true

/-- Modelled from the spec: the generic named constructor
`AppError.notFound(message, originalError?)` binds the category's fixed
status 404 and attaches the original error as `detail` without
transformation. (Used only to build a concrete already-tagged error.) -/
def AppError.notFound (message : String) (originalError : Value) : Value :=
  Value.appError .notFound message 404 originalError true

/-- A repository/service function as seen by the layer wrappers: it
receives an argument list and its invocation has a JavaScript outcome. -/
def JsFunction : Type := List Value → JsOutcome

/-- Embedding of `trycatchWrapper` (src/src/async/trycatch.async.ts,
lines 3-11): the returned `async` arrow function forwards its argument
list to `fn`, awaits the result, returns it on success (so its own
promise resolves with it) and on any caught error rethrows it unchanged
(so its own promise rejects with it). -/
def trycatchWrapper (fn : JsFunction) (args : List Value) : JsOutcome :=
  match awaitResolved (fn args) with
  | .ok v => .promiseResolve v
  | .error e => .promiseReject e

/-- Embedding of `trycatchWrapperMongo` (src/src/async/trycatch.async.ts,
lines 13-21): same shape, but the catch block rethrows
`AppError.mongoError("Mongo Error", error)`. -/
def trycatchWrapperMongo (fn : JsFunction) (args : List Value) : JsOutcome :=
  match awaitResolved (fn args) with
  | .ok v => .promiseResolve v
  | .error e => .promiseReject (AppError.mongoError "Mongo Error" e)

/-- Observable events of one invocation of the Prisma wrapper, in program
order: a `console.log`, the wrapper's promise resolving, or the wrapper's
promise rejecting (the rethrow). -/
inductive Event where
  | logged (tag : String) (v : Value)
  | resolvedWith (v : Value)
  | rejectedWith (e : Value)

/-- Embedding of `trycatchWrapperPrisma` (src/src/async/trycatch.async.ts,
lines 24-33) as its observable event trace: on success the wrapper's
promise resolves with `fn`'s value; on a caught error it first executes
`console.log("Prisma Error:", error)` and then rethrows
`AppError.prismaError("Prisma Error", error)`, rejecting its promise. -/
def trycatchWrapperPrisma (fn : JsFunction) (args : List Value) :
    List Event :=
  match awaitResolved (fn args) with
  | .ok v => [.resolvedWith v]
  | .error e =>
      [.logged "Prisma Error:" e,
       .rejectedWith (AppError.prismaError "Prisma Error" e)]

/-- The settlement of an event trace, read off its last event: the
outcome of the wrapper's own promise, if the trace settles at all. -/
def traceOutcome (t : List Event) : Option JsOutcome :=
  match t.getLast? with
  | some (.resolvedWith v) => some (.promiseResolve v)
  | some (.rejectedWith e) => some (.promiseReject e)
  | _ => none

/-- An outcome is an asynchronous result (a promise), as opposed to a
plain return or a synchronous throw. -/
def JsOutcome.isAsync : JsOutcome → Bool
  | .promiseResolve _ => true
  | .promiseReject _ => true
  | .syncThrow _ => false
  | .retValue _ => false

/-- A trace settles asynchronously: its last event is a promise
resolution or rejection. -/
def traceIsAsync (t : List Event) : Bool :=
  match traceOutcome t with
  | some o => o.isAsync
  | none => false

/-- An Express request handler as seen by `asyncHandler`: invoked with
the request, response and `next` values, its invocation has a JavaScript
outcome. -/
def Handler : Type := Value → Value → Value → JsOutcome

/-- The observable behaviour of one invocation of the function returned
by `asyncHandler`: the list of arguments it passed to `next` (in order)
and the outcome of its own invocation. -/
structure HandlerRun where
  nextCalls : List Value
  result : JsOutcome

/-- Embedding of `asyncHandler` (src/src/async/express.async.ts, lines
2-10): the returned `async` arrow function runs
`await Promise.resolve(requestHandler(req, res, next))` inside `try`; on
success it falls through (returning `undefined`, so its promise resolves
with `undefined` and `next` is not called); on any caught error it calls
`next(error)` once and likewise resolves with `undefined` — the catch
block does not rethrow. -/
def asyncHandler (h : Handler) (req res next : Value) : HandlerRun :=
  match awaitResolved (h req res next) with
  | .ok _ => { nextCalls := [], result := .promiseResolve .undef }
  | .error e => { nextCalls := [e], result := .promiseResolve .undef }

/-! ### Concrete sample values used by witnesses and counterexamples -/

/-- A plain (untagged) error value. -/
def boom : Value := .str "boom"

/-- The duplicate-key error shape from the specification's test vector. -/
def dupKeyError : Value :=
  .obj [("code", .num 11000), ("keyValue", .obj [("email", .str "a@b.com")])]

/-- A concrete already-tagged error (an `AppError` instance). -/
def taggedSample : Value := AppError.notFound "user missing" Value.undef

/-- A wrapped function whose promise resolves with 42. -/
def sampleOkFn : JsFunction := fun _ => .promiseResolve (.num 42)

/-- A wrapped function that throws `boom` synchronously. -/
def sampleThrowFn : JsFunction := fun _ => .syncThrow boom

/-- A wrapped function whose promise rejects with the duplicate-key error. -/
def sampleDupKeyFn : JsFunction := fun _ => .promiseReject dupKeyError

/-- A wrapped function that throws an already-tagged error. -/
def sampleTaggedThrowFn : JsFunction := fun _ => .syncThrow taggedSample

/-- A request handler whose promise resolves with 7. -/
def sampleOkHandler : Handler := fun _ _ _ => .promiseResolve (.num 7)

/-- A request handler that throws `boom` synchronously. -/
def sampleSyncThrowHandler : Handler := fun _ _ _ => .syncThrow boom

/-- A request handler whose promise rejects with `boom`. -/
def sampleRejectHandler : Handler := fun _ _ _ => .promiseReject boom

/-! ### Claim theorems -/

/-- Claim C1: for every request handler, the function returned by
`asyncHandler`, invoked with `(req, res, next)`, executes the handler,
awaits its result, and on any synchronous throw or asynchronous rejection
invokes `next` exactly once with the error value unchanged; the
synchronous-throw and asynchronous-rejection cases produce identical
behaviour, and the wrapper itself never throws (its own promise resolves). -/
theorem asyncHandler_forwards_error_to_next :
    ∀ (h₁ h₂ : Handler) (req res next e : Value),
      (awaitResolved (h₁ req res next) = Except.error e →
        (asyncHandler h₁ req res next).nextCalls = [e] ∧
        (asyncHandler h₁ req res next).result = .promiseResolve .undef) ∧
      (h₁ req res next = .syncThrow e → h₂ req res next = .promiseReject e →
        asyncHandler h₁ req res next = asyncHandler h₂ req res next) := by
  intro h₁ h₂ req res next e
  refine ⟨fun he => ?_, fun hs hr => ?_⟩
  · exact ⟨by simp [asyncHandler, he], by simp [asyncHandler, he]⟩
  · simp [asyncHandler, hs, hr, awaitResolved]

/-- Witness for C1 at concrete inputs: a handler that throws `boom`
synchronously leads to exactly one `next(boom)` call, and behaves
identically to a handler whose promise rejects with `boom`. -/
theorem asyncHandler_forwards_error_to_next_witness :
    (asyncHandler sampleSyncThrowHandler .undef .undef .undef).nextCalls = [boom] ∧
    asyncHandler sampleSyncThrowHandler .undef .undef .undef =
      asyncHandler sampleRejectHandler .undef .undef .undef :=
  ⟨((asyncHandler_forwards_error_to_next sampleSyncThrowHandler sampleRejectHandler
      .undef .undef .undef boom).1 rfl).1,
   (asyncHandler_forwards_error_to_next sampleSyncThrowHandler sampleRejectHandler
      .undef .undef .undef boom).2 rfl rfl⟩

/-- Claim C6: in a single invocation of the function returned by
`asyncHandler`, `next` is invoked at most once, never when the wrapped
handler completes without throwing, and with exactly the thrown/rejected
error when it does throw (the wrapper never swallows an error). -/
theorem asyncHandler_next_at_most_once :
    ∀ (h : Handler) (req res next : Value),
      (asyncHandler h req res next).nextCalls.length ≤ 1 ∧
      (∀ v, awaitResolved (h req res next) = Except.ok v →
        (asyncHandler h req res next).nextCalls = []) ∧
      (∀ e, awaitResolved (h req res next) = Except.error e →
        (asyncHandler h req res next).nextCalls = [e]) := by
  intro h req res next
  refine ⟨?_, fun v hv => by simp [asyncHandler, hv], fun e he => by simp [asyncHandler, he]⟩
  cases hfa : awaitResolved (h req res next) <;> simp [asyncHandler, hfa]

/-- Witness for C6 at concrete inputs: a successfully completing handler
produces no `next` call; a throwing handler produces the one call. -/
theorem asyncHandler_next_at_most_once_witness :
    (asyncHandler sampleOkHandler .undef .undef .undef).nextCalls = [] ∧
    (asyncHandler sampleSyncThrowHandler .undef .undef .undef).nextCalls = [boom] :=
  ⟨(asyncHandler_next_at_most_once sampleOkHandler .undef .undef .undef).2.1
      (Value.num 7) rfl,
   (asyncHandler_next_at_most_once sampleSyncThrowHandler .undef .undef .undef).2.2
      boom rfl⟩

/-- Claim C9: the function returned by `asyncHandler` discards the wrapped
handler's return value — whenever the handler completes normally (with any
value), the wrapper's own promise resolves to `undefined`. -/
theorem asyncHandler_discards_result :
    ∀ (h : Handler) (req res next v : Value),
      awaitResolved (h req res next) = Except.ok v →
      (asyncHandler h req res next).result = .promiseResolve .undef := by
  intro h req res next v hv
  simp [asyncHandler, hv]

/-- Witness for C9 at a concrete input: a handler resolving with 7 still
yields a wrapper promise resolving with `undefined`. -/
theorem asyncHandler_discards_result_witness :
    (asyncHandler sampleOkHandler .undef .undef .undef).result =
      JsOutcome.promiseResolve Value.undef :=
  asyncHandler_discards_result sampleOkHandler .undef .undef .undef (Value.num 7) rfl

/-- Claim C10: none of the four wrappers ever throws synchronously or
returns a plain value — each returned function always yields an
asynchronous result (a promise), and for `asyncHandler` that promise
always resolves (errors surface only through `next`). -/
theorem wrappers_always_yield_async_result :
    ∀ (fn : JsFunction) (args : List Value) (h : Handler) (req res next : Value),
      (trycatchWrapper fn args).isAsync = true ∧
      (trycatchWrapperMongo fn args).isAsync = true ∧
      traceIsAsync (trycatchWrapperPrisma fn args) = true ∧
      (asyncHandler h req res next).result = .promiseResolve .undef := by
  intro fn args h req res next
  refine ⟨?_, ?_, ?_, ?_⟩
  · cases hfa : awaitResolved (fn args) <;>
      simp [trycatchWrapper, hfa, JsOutcome.isAsync]
  · cases hfa : awaitResolved (fn args) <;>
      simp [trycatchWrapperMongo, hfa, JsOutcome.isAsync]
  · cases hfa : awaitResolved (fn args) <;>
      simp [trycatchWrapperPrisma, hfa, traceIsAsync, traceOutcome, JsOutcome.isAsync]
  · cases hfa : awaitResolved (h req res next) <;> simp [asyncHandler, hfa]

/-- Claim C4: the generic layer wrapper is a pass-through — awaiting the
wrapped call gives exactly the result of awaiting the original call; a
normal completion is returned unchanged and a thrown value is rethrown
with identical value, with no transformation in either case. -/
theorem trycatchWrapper_passthrough :
    ∀ (fn : JsFunction) (args : List Value),
      awaitResolved (trycatchWrapper fn args) = awaitResolved (fn args) ∧
      (∀ v, awaitResolved (fn args) = Except.ok v →
        trycatchWrapper fn args = .promiseResolve v) ∧
      (∀ e, awaitResolved (fn args) = Except.error e →
        trycatchWrapper fn args = .promiseReject e) := by
  intro fn args
  refine ⟨?_, fun v hv => by simp [trycatchWrapper, hv],
    fun e he => by simp [trycatchWrapper, he]⟩
  cases hfa : awaitResolved (fn args) <;> simp only [trycatchWrapper, hfa] <;> rfl

/-- Witness for C4 at concrete inputs: the generic wrapper returns the
resolved 42 unchanged and rethrows `boom` unchanged. -/
theorem trycatchWrapper_passthrough_witness :
    trycatchWrapper sampleOkFn [] = JsOutcome.promiseResolve (Value.num 42) ∧
    trycatchWrapper sampleThrowFn [] = JsOutcome.promiseReject boom :=
  ⟨(trycatchWrapper_passthrough sampleOkFn []).2.1 (Value.num 42) rfl,
   (trycatchWrapper_passthrough sampleThrowFn []).2.2 boom rfl⟩

/-- Claim C3: whenever the wrapped function throws `e`, the Mongo layer
wrapper rethrows `AppError.mongoError("Mongo Error", e)`; in particular,
for the duplicate-key original error with `code` 11000, the rethrown value
is a Tagged Error of category `mongo` whose `detail.code` equals 11000. -/
theorem trycatchWrapperMongo_translates :
    (∀ (fn : JsFunction) (args : List Value) (e : Value),
      awaitResolved (fn args) = Except.error e →
        trycatchWrapperMongo fn args =
          .promiseReject (AppError.mongoError "Mongo Error" e)) ∧
    (AppError.mongoError "Mongo Error" dupKeyError).category? = some .mongo ∧
    (AppError.mongoError "Mongo Error" dupKeyError).detail?.bind
        (fun d => getField d "code") = some (Value.num 11000) := by
  refine ⟨fun fn args e he => by simp [trycatchWrapperMongo, he], rfl, rfl⟩

/-- Witness for C3 at a concrete input: wrapping a function that rejects
with the duplicate-key error rethrows the translated Mongo Tagged Error. -/
theorem trycatchWrapperMongo_translates_witness :
    trycatchWrapperMongo sampleDupKeyFn [] =
      JsOutcome.promiseReject (AppError.mongoError "Mongo Error" dupKeyError) :=
  trycatchWrapperMongo_translates.1 sampleDupKeyFn [] dupKeyError rfl

/-- Claim C5: whenever the wrapped function throws `e`, the Prisma layer
wrapper's observable trace is exactly the diagnostic log of `e` followed
by the rethrow of `AppError.prismaError("Prisma Error", e)` — so the log
is an observable side effect that happens before the rethrow. -/
theorem trycatchWrapperPrisma_logs_then_rethrows :
    ∀ (fn : JsFunction) (args : List Value) (e : Value),
      awaitResolved (fn args) = Except.error e →
      trycatchWrapperPrisma fn args =
        [Event.logged "Prisma Error:" e,
         Event.rejectedWith (AppError.prismaError "Prisma Error" e)] := by
  intro fn args e he
  simp [trycatchWrapperPrisma, he]

/-- Witness for C5 at a concrete input: wrapping a function that throws
`boom` produces the log event first and the rethrow second. -/
theorem trycatchWrapperPrisma_logs_then_rethrows_witness :
    trycatchWrapperPrisma sampleThrowFn [] =
      [Event.logged "Prisma Error:" boom,
       Event.rejectedWith (AppError.prismaError "Prisma Error" boom)] :=
  trycatchWrapperPrisma_logs_then_rethrows sampleThrowFn [] boom rfl

/-- Claim C7: no layer wrapper variant ever swallows an error — whenever
the wrapped function throws, the generic and Mongo wrappers' promises
reject, and the Prisma wrapper's trace settles with a rejection. -/
theorem wrappers_never_swallow :
    ∀ (fn : JsFunction) (args : List Value) (e : Value),
      awaitResolved (fn args) = Except.error e →
      (∃ e₁, trycatchWrapper fn args = .promiseReject e₁) ∧
      (∃ e₂, trycatchWrapperMongo fn args = .promiseReject e₂) ∧
      (∃ e₃, traceOutcome (trycatchWrapperPrisma fn args) =
        some (.promiseReject e₃)) := by
  intro fn args e he
  exact ⟨⟨e, by simp [trycatchWrapper, he]⟩,
    ⟨AppError.mongoError "Mongo Error" e, by simp [trycatchWrapperMongo, he]⟩,
    ⟨AppError.prismaError "Prisma Error" e,
      by simp [trycatchWrapperPrisma, traceOutcome, he]⟩⟩

/-- Witness for C7 at a concrete input: all three wrappers reject when the
wrapped function throws `boom`. -/
theorem wrappers_never_swallow_witness :
    (∃ e₁, trycatchWrapper sampleThrowFn [] = .promiseReject e₁) ∧
    (∃ e₂, trycatchWrapperMongo sampleThrowFn [] = .promiseReject e₂) ∧
    (∃ e₃, traceOutcome (trycatchWrapperPrisma sampleThrowFn []) =
      some (.promiseReject e₃)) :=
  wrappers_never_swallow sampleThrowFn [] boom rfl

/-- Claim C8: every layer wrapper variant forwards its whole argument list
unchanged to the wrapped function — its behaviour on a call depends only
on the wrapped function's outcome at exactly those arguments — and when
the wrapped function completes normally with `v`, each wrapper's result is
`v` (its promise resolves with `v`). -/
theorem wrappers_forward_args_and_results :
    ∀ (fn g : JsFunction) (args : List Value) (v : Value),
      (fn args = g args →
        trycatchWrapper fn args = trycatchWrapper g args ∧
        trycatchWrapperMongo fn args = trycatchWrapperMongo g args ∧
        trycatchWrapperPrisma fn args = trycatchWrapperPrisma g args) ∧
      (awaitResolved (fn args) = Except.ok v →
        trycatchWrapper fn args = .promiseResolve v ∧
        trycatchWrapperMongo fn args = .promiseResolve v ∧
        trycatchWrapperPrisma fn args = [Event.resolvedWith v]) := by
  intro fn g args v
  refine ⟨fun hfg => ?_, fun hv => ?_⟩
  · exact ⟨by simp [trycatchWrapper, hfg], by simp [trycatchWrapperMongo, hfg],
      by simp [trycatchWrapperPrisma, hfg]⟩
  · exact ⟨by simp [trycatchWrapper, hv], by simp [trycatchWrapperMongo, hv],
      by simp [trycatchWrapperPrisma, hv]⟩

/-- Witness for C8 at concrete inputs: with the same function on both
sides the forwarding equalities hold, and a function resolving with 42
makes every wrapper resolve with 42. -/
theorem wrappers_forward_args_and_results_witness :
    (trycatchWrapper sampleOkFn [Value.num 1] =
        trycatchWrapper sampleOkFn [Value.num 1] ∧
      trycatchWrapperMongo sampleOkFn [Value.num 1] =
        trycatchWrapperMongo sampleOkFn [Value.num 1] ∧
      trycatchWrapperPrisma sampleOkFn [Value.num 1] =
        trycatchWrapperPrisma sampleOkFn [Value.num 1]) ∧
    (trycatchWrapper sampleOkFn [Value.num 1] =
        JsOutcome.promiseResolve (Value.num 42) ∧
      trycatchWrapperMongo sampleOkFn [Value.num 1] =
        JsOutcome.promiseResolve (Value.num 42) ∧
      trycatchWrapperPrisma sampleOkFn [Value.num 1] =
        [Event.resolvedWith (Value.num 42)]) :=
  ⟨(wrappers_forward_args_and_results sampleOkFn sampleOkFn [Value.num 1]
      (Value.num 42)).1 rfl,
   (wrappers_forward_args_and_results sampleOkFn sampleOkFn [Value.num 1]
      (Value.num 42)).2 rfl⟩

/-- Counterexample to claim C2 at a concrete input: a wrapped function
throws `taggedSample`, which is already a Tagged Error (an `AppError`
instance of category `notFound`), yet `trycatchWrapperMongo` does not
rethrow it unchanged — the catch block re-wraps unconditionally. -/
theorem trycatchWrapperMongo_retags_counterexample :
    isAppError taggedSample = true ∧
    trycatchWrapperMongo sampleTaggedThrowFn [] ≠
      JsOutcome.promiseReject taggedSample := by
  refine ⟨rfl, fun hcontra => ?_⟩
  simp [trycatchWrapperMongo, sampleTaggedThrowFn, awaitResolved,
    AppError.mongoError, AppError.notFound, taggedSample] at hcontra

/-- Claim C2 as amended: the Mongo and Prisma layer wrappers re-wrap
unconditionally — when the wrapped function throws a value that is already
a Tagged Error, they do not pass it through but rethrow a fresh Tagged
Error of category mongo (respectively prisma) built from it, retaining the
original only inside `detail`. -/
theorem layer_wrappers_rewrap_tagged_errors :
    ∀ (fn : JsFunction) (args : List Value) (e : Value),
      awaitResolved (fn args) = Except.error e → isAppError e = true →
      trycatchWrapperMongo fn args =
        .promiseReject (AppError.mongoError "Mongo Error" e) ∧
      (AppError.mongoError "Mongo Error" e).category? = some .mongo ∧
      traceOutcome (trycatchWrapperPrisma fn args) =
        some (.promiseReject (AppError.prismaError "Prisma Error" e)) ∧
      (AppError.prismaError "Prisma Error" e).category? = some .prisma := by
  intro fn args e he _
  exact ⟨by simp [trycatchWrapperMongo, he], rfl,
    by simp [trycatchWrapperPrisma, traceOutcome, he], rfl⟩

/-- Witness for the amended C2 at a concrete input: a wrapped function
throwing the already-tagged `taggedSample` leads the Mongo wrapper to
rethrow a category-`mongo` error and the Prisma wrapper a
category-`prisma` error. -/
theorem layer_wrappers_rewrap_tagged_errors_witness :
    trycatchWrapperMongo sampleTaggedThrowFn [] =
      JsOutcome.promiseReject (AppError.mongoError "Mongo Error" taggedSample) ∧
    (AppError.mongoError "Mongo Error" taggedSample).category? =
      some ErrorCategory.mongo ∧
    traceOutcome (trycatchWrapperPrisma sampleTaggedThrowFn []) =
      some (JsOutcome.promiseReject
        (AppError.prismaError "Prisma Error" taggedSample)) ∧
    (AppError.prismaError "Prisma Error" taggedSample).category? =
      some ErrorCategory.prisma :=
  layer_wrappers_rewrap_tagged_errors sampleTaggedThrowFn [] taggedSample rfl rfl
